import Mathlib

/-!
Shallow embedding of the infraction store / query engine
(`pysite/views/api/bot/infractions.py`) and the code-jam ban gate
(`pysite/views/main/jams/join.py`).

Timestamps are modelled as integers (seconds); the server-side clock
`rethinkdb.now()` becomes an explicit `now : Int` parameter threaded into
every query that compares against it.  The document store is modelled as a
list of documents; `insert` appends (the generated key is passed in
explicitly), `update`/`get` address documents by their `id` field.
-/

namespace Pysite

/-- The closed enumeration of infraction type names, in the insertion
order of the `INFRACTION_TYPES` dict of the source. -/
inductive InfractionTypeName
  | warning
  | mute
  | ban
  | kick
  | softban
deriving DecidableEq, Repr

/-- Behavioural flags of a type (`class InfractionType(NamedTuple)`). -/
structure InfractionType where
  timed_infraction : Bool
deriving DecidableEq, Repr

/-- The static `INFRACTION_TYPES` table of the source. -/
def INFRACTION_TYPES : InfractionTypeName → InfractionType
  | .warning => { timed_infraction := false }
  | .mute => { timed_infraction := true }
  | .ban => { timed_infraction := true }
  | .kick => { timed_infraction := false }
  | .softban => { timed_infraction := false }

/-- The keys of `INFRACTION_TYPES` in dict order. -/
def infractionTypeKeys : List InfractionTypeName :=
  [.warning, .mute, .ban, .kick, .softban]

/-- A stored infraction document of the `bot_infractions` table.
`active` is the nullable stored override (`none` when the field is
absent); `expires_at` is the nullable expiry timestamp. -/
structure InfractionDoc where
  id : Nat
  user_id : String
  actor_id : String
  type : InfractionTypeName
  reason : String
  inserted_at : Int
  expires_at : Option Int
  active : Option Bool
deriving DecidableEq, Repr

/-- Embeds `_is_timed_infraction`: the source folds a disjunction
`rethinkdb.expr(False) | type.eq(k) | ...` over the keys of
`INFRACTION_TYPES` whose `timed_infraction` flag is set (the
`if expr is None` branch is dead, since `expr` starts at `expr(False)`). -/
def _is_timed_infraction (type_var : InfractionTypeName) : Bool :=
  List.foldl (fun expr infra_type => expr || (type_var == infra_type)) false
    (infractionTypeKeys.filter fun key => (INFRACTION_TYPES key).timed_infraction)

/-- Embeds `_merge_active_check`: derives the `active` field of a row at query
time.  `row["active"].default(True)` reads the stored override with a
default of `True` when absent; `rethinkdb.now()` is the `now` argument. -/
def _merge_active_check (now : Int) (row : InfractionDoc) : Bool :=
  if _is_timed_infraction row.type then
    if (row.active.getD true) == false then
      false
    else
      match row.expires_at with
      | none => true
      | some expiry => now < expiry
  else
    false

/-- A stored user profile of the `users` table. -/
structure UserProfile where
  user_id : String
  username : String
  discriminator : Nat
  avatar : String
deriving DecidableEq, Repr

/-- The shaped `user` / `actor` object of a response: either the bare
`{user_id}` stub — whose id is the server-side value of
`row["user_id"].default(None)`, a string or null — or the full profile
(merged with its `user_id`). -/
inductive UserRef
  | stub (user_id : Option String)
  | full (profile : UserProfile)
deriving DecidableEq, Repr

/-- Python truthiness of the argument of `_do_expand` at query-build
time: the function receives the ReQL AST term
`row["user_id"].default(None)` — a driver term object, not a value — and
a term object is always truthy, so `if not user_id: return None` never
fires. -/
def reql_term_falsy : Bool := false

/-- Embeds `_do_expand` inside `_merge_expand_users`.  The guard
`if not user_id: return None` is dead (see `reql_term_falsy`), so the
function always emits either the lookup
`query("users").get(user_id).default({user_id})` (when `expand` is
truthy) or the `{user_id}` stub.  `user_id` here is the server-side
value of `row["user_id"].default(None)`: a string, or null when the
field is absent, in which case the lookup matches no profile and the
default falls back to the stub carrying the null id. -/
def _do_expand (users : List UserProfile) (expand : Bool)
    (user_id : Option String) : Option UserRef :=
  if reql_term_falsy then
    none
  else if expand then
    match user_id.bind (fun uid => users.find? fun u => u.user_id == uid) with
    | some profile => some (.full profile)
    | none => some (.stub user_id)
  else
    some (.stub user_id)

/-- A shaped infraction as returned by every read path: the raw
`user_id` / `actor_id` fields are projected away (`.without`), `user` /
`actor` are attached by `_merge_expand_users`, and `active` is the value
derived by `_merge_active_check`. -/
structure ShapedInfraction where
  id : Nat
  type : InfractionTypeName
  reason : String
  inserted_at : Int
  expires_at : Option Int
  active : Bool
  user : Option UserRef
  actor : Option UserRef
deriving DecidableEq, Repr

/-- Response shaping shared by all read paths:
`.merge(_merge_expand_users(view, expand)).merge(_merge_active_check())
 .without("user_id", "actor_id")`. -/
def shapeInfraction (users : List UserProfile) (expand : Bool) (now : Int)
    (row : InfractionDoc) : ShapedInfraction :=
  { id := row.id
    type := row.type
    reason := row.reason
    inserted_at := row.inserted_at
    expires_at := row.expires_at
    active := _merge_active_check now row
    user := _do_expand users expand (some row.user_id)
    actor := _do_expand users expand (some row.actor_id) }

/-- Python's `str.lower()` on the query-parameter strings in scope,
as a per-character map. -/
def str_lower (s : String) : String :=
  String.mk (s.data.map Char.toLower)

/-- Embeds `parse_bool`: absent, `"null"` or `"any"` give the default;
case-insensitive `"false"` / `"no"` or exact `"0"` give false; anything
else gives true. -/
def parse_bool (a_string : Option String) (default : Option Bool) : Option Bool :=
  match a_string with
  | none => default
  | some s =>
    if s = "null" ∨ s = "any" then default
    else if str_lower s = "false" ∨ str_lower s = "no" ∨ s = "0" then some false
    else some true

/-- The `bot_infractions` table: a list of documents in insertion order. -/
abbrev InfractionTable := List InfractionDoc

/-- Embeds `db.query(table).get(id)`: first document whose `id` field matches. -/
def db_get (table : InfractionTable) (i : Nat) : Option InfractionDoc :=
  table.find? (fun row => row.id == i)

/-- An equality filter over infraction rows, as passed to `.filter({...})`
by the list endpoints; the `active` entry is matched against the row's
`active` AFTER `_merge_active_check` has replaced it (the merge precedes
the filter in `_merged_query`). -/
structure InfractionFilter where
  user_id : Option String
  type : Option InfractionTypeName
  active : Option Bool
deriving DecidableEq, Repr

/-- Whether a merged row (stored fields plus its derived `active`)
matches the equality filter. -/
def matchesFilter (f : InfractionFilter) (row : InfractionDoc)
    (derivedActive : Bool) : Bool :=
  (match f.user_id with | some u => row.user_id == u | none => true) &&
  (match f.type with | some t => row.type == t | none => true) &&
  (match f.active with | some b => derivedActive == b | none => true)

/-- Embeds `_merged_query`:
`query(table).merge(_merge_active_check()).filter(query_filter)
 .merge(_merge_expand_users(view, expand)).without("user_id","actor_id")`.
The activation merge runs before the filter, then rows are shaped. -/
def _merged_query (users : List UserProfile) (table : InfractionTable)
    (expand : Bool) (query_filter : InfractionFilter) (now : Int) :
    List ShapedInfraction :=
  ((table.map (fun row => (row, _merge_active_check now row))).filter
      (fun merged => matchesFilter query_filter merged.1 merged.2)).map
    (fun merged => shapeInfraction users expand now merged.1)

/-- The optional `active` / `expand` query parameters of the GET
endpoints (raw strings, run through `parse_bool`). -/
structure GetParams where
  active : Option String
  expand : Option String
deriving DecidableEq, Repr

/-- Embeds `_infraction_list_filtered`: parses `active` (default None) and
`expand` (default False) and adds `active` to the query filter only when
parsed to a non-None value. -/
def _infraction_list_filtered (users : List UserProfile)
    (table : InfractionTable) (params : GetParams)
    (query_filter : InfractionFilter) (now : Int) : List ShapedInfraction :=
  let active := parse_bool params.active none
  let expand := (parse_bool params.expand (some false)).getD false
  let query_filter :=
    match active with
    | some b => { query_filter with active := some b }
    | none => query_filter
  _merged_query users table expand query_filter now

/-- JSON payload of `POST /bot/infractions` (after schema validation). -/
structure PostData where
  type : InfractionTypeName
  reason : String
  user_id : String
  actor_id : String
  duration : Option Int
  expand : Option Bool
deriving DecidableEq, Repr

/-- The `active_infraction_query` of `InfractionsView.post`:
`.merge(_merge_active_check()).filter({user_id, type, active: True})
 .limit(1).nth(0).default(None)` — the first stored row of this user and
type whose derived active is true. -/
def findActiveInfraction (table : InfractionTable) (user_id : String)
    (infraction_type : InfractionTypeName) (now : Int) : Option InfractionDoc :=
  (table.filter fun row =>
    row.user_id == user_id && row.type == infraction_type &&
      _merge_active_check now row).head?

/-- The document inserted by `InfractionsView.post`: `inserted_at` is the
creation-time now; `expires_at` is set only inside the timed-type branch
and only when `duration` is truthy (a provided duration of `0` is falsy
in Python and leaves `expires_at` null); no stored `active` field. -/
def post_new_doc (data : PostData) (now : Int) (newId : Nat) : InfractionDoc :=
  { id := newId
    user_id := data.user_id
    actor_id := data.actor_id
    type := data.type
    reason := data.reason
    inserted_at := now
    expires_at :=
      if (INFRACTION_TYPES data.type).timed_infraction then
        match data.duration with
        | some duration => if duration ≠ 0 then some (now + duration) else none
        | none => none
      else none
    active := none }

/-- A mutation run against the store by the create path. -/
inductive StoreOp
  | insertDoc (doc : InfractionDoc)
  | setInactive (i : Nat)
deriving DecidableEq, Repr

/-- Effect of one store mutation: insert appends; the deactivation query
`get(id).update({"active": False})` sets the stored override of the
addressed document to false. -/
def applyStoreOp (table : InfractionTable) : StoreOp → InfractionTable
  | .insertDoc doc => table ++ [doc]
  | .setInactive i =>
    table.map fun row =>
      if row.id = i then { row with active := some false } else row

/-- The ordered sequence of store mutations performed by
`InfractionsView.post`: the insert always runs first; the deactivation of
a previously active infraction of the same timed type (looked up before
the insert) runs after the insert, when one was found. -/
def post_mutations (table : InfractionTable) (data : PostData) (now : Int)
    (newId : Nat) : List StoreOp :=
  let deactivate :=
    if (INFRACTION_TYPES data.type).timed_infraction then
      match findActiveInfraction table data.user_id data.type now with
      | some active_infraction => [StoreOp.setInactive active_infraction.id]
      | none => []
    else []
  StoreOp.insertDoc (post_new_doc data now newId) :: deactivate

/-- The store after `InfractionsView.post` has run all its mutations. -/
def post_table (table : InfractionTable) (data : PostData) (now : Int)
    (newId : Nat) : InfractionTable :=
  (post_mutations table data now newId).foldl applyStoreOp table

/-- The response of `InfractionsView.post`: the new document re-read by
id and shaped (expansion per the payload's `expand`, Python-truthy). -/
def post_response (users : List UserProfile) (table : InfractionTable)
    (data : PostData) (now : Int) (newId : Nat) : Option ShapedInfraction :=
  (db_get (post_table table data now newId) newId).map
    (shapeInfraction users (data.expand.getD false) now)

/-- JSON payload of `PATCH /bot/infractions` (after schema validation);
each optional field's presence is what `"key" in data` tests. -/
structure PatchData where
  id : Nat
  reason : Option String
  duration : Option Int
  active : Option Bool
  expand : Option Bool
deriving DecidableEq, Repr

/-- The `update_collection` built by `InfractionsView.patch`: always the
id; `reason` and `active` copied when present; when `duration` is present
(even `0`), `expires_at := now + duration` computed from the update-time
clock.  The outer `Option` of `expires_at` records presence. -/
structure UpdateCollection where
  id : Nat
  reason : Option String
  active : Option Bool
  expires_at : Option (Option Int)
deriving DecidableEq, Repr

/-- Builds the `update_collection` from the payload at update time. -/
def patch_update_collection (data : PatchData) (now : Int) : UpdateCollection :=
  { id := data.id
    reason := data.reason
    active := data.active
    expires_at :=
      match data.duration with
      | some duration => some (some (now + duration))
      | none => none }

/-- Applies the update collection's present fields to one document. -/
def applyUpdateCollection (uc : UpdateCollection) (row : InfractionDoc) :
    InfractionDoc :=
  { row with
    reason := uc.reason.getD row.reason
    active := match uc.active with | some b => some b | none => row.active
    expires_at := match uc.expires_at with | some e => e | none => row.expires_at }

/-- The store's update step for `query(table).update(update_collection)`:
the document whose primary key equals the collection's `id` receives the
present fields; `replaced` (§6 store contract: whether a document was
matched/replaced) is `true` exactly when such a document exists. -/
def db_update (table : InfractionTable) (uc : UpdateCollection) :
    InfractionTable × Bool :=
  (table.map (fun row => if row.id = uc.id then applyUpdateCollection uc row else row),
   table.any fun row => row.id == uc.id)

/-- Result of `InfractionsView.patch`: the store afterwards, the
`success` flag, and the (possibly absent) shaped infraction payload. -/
structure PatchResult where
  table : InfractionTable
  success : Bool
  infraction : Option ShapedInfraction
deriving DecidableEq, Repr

/-- Embeds `InfractionsView.patch`: runs the update; on `replaced = 0` answers
`{"success": False}` with no infraction; otherwise re-reads the document
by id, shapes it, and answers it with `"success": True`. -/
def patch (users : List UserProfile) (table : InfractionTable)
    (data : PatchData) (now : Int) : PatchResult :=
  let uc := patch_update_collection data now
  let updated := db_update table uc
  if !updated.2 then
    { table := updated.1, success := false, infraction := none }
  else
    { table := updated.1
      success := true
      infraction := (db_get updated.1 data.id).map
        (shapeInfraction users (data.expand.getD false) now) }

/-- A `code_jam_infractions` document (a jam ban record). -/
structure JamBanRecord where
  participant : String
  number : Int
  reason : String
  decremented_for : List Nat
deriving DecidableEq, Repr

/-- Outcome of the ban gate: cleared, or blocked with the (possibly
just-decremented) record that blocked. -/
inductive GateResult
  | clear
  | blocked (record : JamBanRecord)
deriving DecidableEq, Repr

/-- The ban-gate loop of `JamsJoinView.post` (identically `.get`) over
the user's ban records, in store order, together with the store contents
afterwards.  Per record: `number == -1` blocks with no mutation;
`if infraction["number"]` (Python truthiness: any nonzero integer) blocks
and, when `jam` is not yet in `decremented_for`, decrements `number`,
appends `jam` and upserts the record; otherwise a record whose
`decremented_for` already holds `jam` blocks with no mutation; a record
passing all three tests is skipped and the loop continues. -/
def jamCheck (jam : Nat) : List JamBanRecord → GateResult × List JamBanRecord
  | [] => (.clear, [])
  | infraction :: rest =>
    if infraction.number = -1 then
      (.blocked infraction, infraction :: rest)
    else if infraction.number ≠ 0 then
      if jam ∉ infraction.decremented_for then
        let infraction :=
          { infraction with
            number := infraction.number - 1
            decremented_for := infraction.decremented_for ++ [jam] }
        (.blocked infraction, infraction :: rest)
      else
        (.blocked infraction, infraction :: rest)
    else if jam ∈ infraction.decremented_for then
      (.blocked infraction, infraction :: rest)
    else
      let tail := jamCheck jam rest
      (tail.1, infraction :: tail.2)

/-- The activation rule as the specification states it (for comparison
with the code's `_merge_active_check`): not timed → false; stored
override false → false; `expires_at` null → true; otherwise
`expires_at > now`. -/
def effective_active_spec (infraction : InfractionDoc) (now : Int) : Bool :=
  if (INFRACTION_TYPES infraction.type).timed_infraction = false then
    false
  else if infraction.active = some false then
    false
  else
    match infraction.expires_at with
    | none => true
    | some expiry => decide (expiry > now)

/-- The disjunction folded by `_is_timed_infraction` computes exactly the
`timed_infraction` flag of the static type table. -/
theorem is_timed_infraction_eq (t : InfractionTypeName) :
    _is_timed_infraction t = (INFRACTION_TYPES t).timed_infraction := by
  cases t <;> rfl

/-- Case analysis of the derived-active computation against the
spec-side rule, for one row. -/
theorem merge_active_eq_spec (now : Int) (row : InfractionDoc) :
    _merge_active_check now row = effective_active_spec row now := by
  unfold _merge_active_check effective_active_spec
  rw [is_timed_infraction_eq]
  rcases h : (INFRACTION_TYPES row.type).timed_infraction with _ | _
  · simp
  · simp only [if_true, Bool.false_eq_true, if_false]
    rcases row.active with _ | b
    · simp
    · rcases b <;> simp

/-- C1: for every infraction record, the derived `active` value returned
by any read path equals the activation rule: false when the record's
type is not timed (warning, kick, softban), regardless of stored
`active` or `expires_at`; otherwise false when the stored `active`
override equals false; otherwise true when `expires_at` is null;
otherwise the comparison `expires_at > now` at query time.  The first
conjunct settles the merge itself; the second settles the shaped record
every read path returns; the remaining conjuncts restate the rule's
branches directly against the code's merge. -/
theorem C1_effective_active_rule (now : Int) (row : InfractionDoc) :
    (_merge_active_check now row = effective_active_spec row now) ∧
    (∀ (users : List UserProfile) (expand : Bool),
(shapeInfraction users expand now row).active = effective_active_spec row now) ∧
    ((INFRACTION_TYPES row.type).timed_infraction = false →
_merge_active_check now row = false) ∧
    ((INFRACTION_TYPES row.type).timed_infraction = true → row.active = some false →
_merge_active_check now row = false) ∧
    ((INFRACTION_TYPES row.type).timed_infraction = true → row.active ≠ some false →
row.expires_at = none → _merge_active_check now row = true) ∧
    (∀ expiry : Int, (INFRACTION_TYPES row.type).timed_infraction = true →
row.active ≠ some false → row.expires_at = some expiry →
_merge_active_check now row = decide (expiry > now)) := by
  refine ⟨merge_active_eq_spec now row, ?_, ?_, ?_, ?_, ?_⟩
  · intro users expand
    exact merge_active_eq_spec now row
  · intro h
    rw [merge_active_eq_spec now row]
    unfold effective_active_spec
    simp [h]
  · intro ht ha
    rw [merge_active_eq_spec now row]
    unfold effective_active_spec
    simp [ht, ha]
  · intro ht ha he
    rw [merge_active_eq_spec now row]
    unfold effective_active_spec
    simp [ht, ha, he]
  · intro expiry ht ha he
    rw [merge_active_eq_spec now row]
    unfold effective_active_spec
    simp [ht, ha, he]

/-- Witness for C1 at a concrete record: a timed ban, no stored
override, expiring at 200, read at 100, is active. -/
theorem C1_effective_active_rule_witness :
    (INFRACTION_TYPES InfractionTypeName.ban).timed_infraction = true ∧
    _merge_active_check 100 ⟨1, "u", "m", .ban, "r", 0, some 200, none⟩ =
      decide ((200 : Int) > 100) := by
  constructor
  · decide
  · exact (C1_effective_active_rule 100 ⟨1, "u", "m", .ban, "r", 0, some 200, none⟩).2.2.2.2.2
      200 (by decide) (by decide) (by decide)

/-- C10 (implicit): a stored `active` override of `true` behaves exactly
like an absent override — the merge defaults a missing `active` to true
and only short-circuits on an explicit false — so for a timed infraction
with stored `active = true` the derived value is still governed by
`expires_at` (an expired record reads inactive despite the stored true),
and for a non-timed type it is still false. -/
theorem C10_active_true_like_absent (now : Int) (row : InfractionDoc) :
    (_merge_active_check now { row with active := some true } =
      _merge_active_check now { row with active := none }) ∧
    (∀ expiry : Int, (INFRACTION_TYPES row.type).timed_infraction = true →
row.expires_at = some expiry → expiry ≤ now →
_merge_active_check now { row with active := some true } = false) ∧
    ((INFRACTION_TYPES row.type).timed_infraction = false →
_merge_active_check now { row with active := some true } = false) := by
  refine ⟨?_, ?_, ?_⟩
  · unfold _merge_active_check
    simp
  · intro expiry ht he hle
    unfold _merge_active_check
    rw [is_timed_infraction_eq]
    simp only [ht, if_true]
    simp [he, not_lt.mpr hle]
  · intro ht
    unfold _merge_active_check
    rw [is_timed_infraction_eq]
    simp [ht]

/-- Witness for C10: a timed mute with stored `active = true` but expiry
50 in the past of now 100 reads inactive. -/
theorem C10_active_true_like_absent_witness :
    _merge_active_check 100
      ⟨(3 : Nat), "u", "m", .mute, "r", 0, some 50, some true⟩ = false := by
  exact (C10_active_true_like_absent 100
      ⟨3, "u", "m", .mute, "r", 0, some 50, none⟩).2.1
    50 (by decide) (by decide) (by decide)

/-- C6 counterexample: for a create of the timed type `ban` with the
provided duration `0`, the inserted document has `inserted_at = 100` but
`expires_at = none`, not `inserted_at + duration = some 100` as the
claim states for every provided duration (the source guards the
assignment with Python-truthy `if duration:`). -/
theorem C6_zero_duration_counterexample :
    (INFRACTION_TYPES InfractionTypeName.ban).timed_infraction = true ∧
    (post_new_doc ⟨.ban, "r", "u", "m", some 0, none⟩ 100 1).inserted_at = 100 ∧
    (post_new_doc ⟨.ban, "r", "u", "m", some 0, none⟩ 100 1).expires_at = none ∧
    (post_new_doc ⟨.ban, "r", "u", "m", some 0, none⟩ 100 1).expires_at ≠
      some ((100 : Int) + 0) := by
  refine ⟨by decide, rfl, rfl, by decide⟩

/-- C6 (amended): for every create, `inserted_at` is the creation-time
now; if the type is timed and a NONZERO duration is provided,
`expires_at = inserted_at + duration`; in every other case (non-timed
type, no duration, or a provided duration of zero) `expires_at` is
null. -/
theorem C6_create_timestamps (data : PostData) (now : Int) (newId : Nat) :
    ((post_new_doc data now newId).inserted_at = now) ∧
    (∀ d : Int, (INFRACTION_TYPES data.type).timed_infraction = true →
data.duration = some d → d ≠ 0 →
(post_new_doc data now newId).expires_at = some (now + d)) ∧
    ((INFRACTION_TYPES data.type).timed_infraction = false →
(post_new_doc data now newId).expires_at = none) ∧
    (data.duration = none → (post_new_doc data now newId).expires_at = none) ∧
    (data.duration = some 0 → (post_new_doc data now newId).expires_at = none) := by
  refine ⟨rfl, ?_, ?_, ?_, ?_⟩
  · intro d ht hd hnz
    unfold post_new_doc
    simp [ht, hd, hnz]
  · intro ht
    unfold post_new_doc
    simp [ht]
  · intro hd
    unfold post_new_doc
    rcases h : (INFRACTION_TYPES data.type).timed_infraction <;> simp [hd]
  · intro hd
    unfold post_new_doc
    rcases h : (INFRACTION_TYPES data.type).timed_infraction <;> simp [hd]

/-- Witness for C6: a 60-second mute created at 100 expires at 160,
while a kick created with the same duration has a null expiry. -/
theorem C6_create_timestamps_witness :
    (post_new_doc ⟨.mute, "r", "u", "m", some 60, none⟩ 100 1).inserted_at = 100 ∧
    (post_new_doc ⟨.mute, "r", "u", "m", some 60, none⟩ 100 1).expires_at = some 160 ∧
    (post_new_doc ⟨.kick, "r", "u", "m", some 60, none⟩ 100 2).expires_at = none := by
  refine ⟨(C6_create_timestamps ⟨.mute, "r", "u", "m", some 60, none⟩ 100 1).1, ?_, ?_⟩
  · exact (C6_create_timestamps ⟨.mute, "r", "u", "m", some 60, none⟩ 100 1).2.1
      60 (by decide) rfl (by decide)
  · exact (C6_create_timestamps ⟨.kick, "r", "u", "m", some 60, none⟩ 100 2).2.2.1
      (by decide)

/-- C7: for every update, only the fields present in the input are
applied (identity and creation fields are untouched, absent optional
fields leave their targets unchanged), and when a duration is provided
the record's `expires_at` is recomputed as update-time now plus the
duration — independent of the record's original `inserted_at` and with
no condition on whether the type is timed. -/
theorem C7_patch_field_semantics (row : InfractionDoc) (data : PatchData) (now : Int) :
    ((applyUpdateCollection (patch_update_collection data now) row).id = row.id) ∧
    ((applyUpdateCollection (patch_update_collection data now) row).user_id = row.user_id) ∧
    ((applyUpdateCollection (patch_update_collection data now) row).actor_id = row.actor_id) ∧
    ((applyUpdateCollection (patch_update_collection data now) row).type = row.type) ∧
    ((applyUpdateCollection (patch_update_collection data now) row).inserted_at =
      row.inserted_at) ∧
    ((applyUpdateCollection (patch_update_collection data now) row).reason =
      match data.reason with
      | some s => s
      | none => row.reason) ∧
    ((applyUpdateCollection (patch_update_collection data now) row).active =
      match data.active with
      | some b => some b
      | none => row.active) ∧
    ((applyUpdateCollection (patch_update_collection data now) row).expires_at =
      match data.duration with
      | some duration => some (now + duration)
      | none => row.expires_at) := by
  unfold applyUpdateCollection patch_update_collection
  refine ⟨rfl, rfl, rfl, rfl, rfl, ?_, rfl, ?_⟩
  · rcases data.reason <;> rfl
  · rcases data.duration <;> rfl

/-- C9 counterexample: with a null/absent `user_id` the expansion does
NOT yield null — the source's `if not user_id: return None` tests the
ReQL term at query-build time and never fires — it yields the
`{user_id}` stub carrying the null id, both with expansion off and with
expansion on (where the lookup matches nothing and the `.default` falls
back to the same stub). -/
theorem C9_null_stub_counterexample :
    _do_expand [] false none = some (.stub none) ∧
    _do_expand [] true none = some (.stub none) ∧
    some (UserRef.stub none) ≠ (none : Option UserRef) := by
  refine ⟨rfl, rfl, by decide⟩

/-- C9 (amended): a null/absent `user_id` yields the bare `{user_id}`
stub carrying the null id, not null (the null guard is dead at query
build); with `doExpand` false the result is the bare `{user_id}` stub
even when a full profile exists; with `doExpand` true the result is the
stored profile when one exists for the id, and otherwise falls back to
the `{user_id}` stub — the expansion never yields null, so a missing
referenced user profile never causes the enclosing query to fail. -/
theorem C9_expand_fallback (users : List UserProfile)
    (user_id : Option String) :
    (∀ doExpand : Bool, _do_expand users doExpand none = some (.stub none)) ∧
    (_do_expand users false user_id = some (.stub user_id)) ∧
    (∀ uid profile, user_id = some uid →
users.find? (fun u => u.user_id == uid) = some profile →
_do_expand users true user_id = some (.full profile)) ∧
    (∀ uid, user_id = some uid →
users.find? (fun u => u.user_id == uid) = none →
_do_expand users true user_id = some (.stub user_id)) ∧
    (∀ doExpand : Bool, _do_expand users doExpand user_id ≠ none) := by
  refine ⟨?_, rfl, ?_, ?_, ?_⟩
  · intro doExpand
    rcases doExpand <;> rfl
  · intro uid profile hu hf
    subst hu
    unfold _do_expand
    simp [reql_term_falsy, hf]
  · intro uid hu hf
    subst hu
    unfold _do_expand
    simp [reql_term_falsy, hf]
  · intro doExpand
    unfold _do_expand
    rcases doExpand
    · simp [reql_term_falsy]
    · simp only [reql_term_falsy, Bool.false_eq_true, if_false, if_true]
      rcases h : user_id.bind (fun uid => users.find? fun u => u.user_id == uid) with
        _ | profile <;> simp [h]

/-- Witness for C9: expansion off yields the stub although a profile
exists; a present profile is returned under expansion, and a missing
one falls back to the stub. -/
theorem C9_expand_fallback_witness :
    _do_expand [⟨"7", "name", 1, "avatar"⟩] false (some "7") =
      some (.stub (some "7")) ∧
    _do_expand [⟨"7", "name", 1, "avatar"⟩] true (some "7") =
      some (.full ⟨"7", "name", 1, "avatar"⟩) ∧
    _do_expand [⟨"7", "name", 1, "avatar"⟩] true (some "8") =
      some (.stub (some "8")) := by
  refine ⟨?_, ?_, ?_⟩
  · exact (C9_expand_fallback [⟨"7", "name", 1, "avatar"⟩] (some "7")).2.1
  · exact (C9_expand_fallback [⟨"7", "name", 1, "avatar"⟩] (some "7")).2.2.1
      "7" ⟨"7", "name", 1, "avatar"⟩ rfl (by decide)
  · exact (C9_expand_fallback [⟨"7", "name", 1, "avatar"⟩] (some "8")).2.2.2.1
      "8" rfl (by decide)

/-- C3 counterexample: a ban record whose `number` is `-2` — nonzero but
NOT a positive remaining count, and not `-1` — with `decremented_for`
not containing the jam satisfies none of the claim's blocking
conditions, so the claim requires Clear with no mutation; the code's
Python-truthiness test `if infraction["number"]:` blocks on it and
mutates it, decrementing `-2` to `-3` and charging the jam. -/
theorem C3_negative_number_blocks :
    jamCheck 7 [⟨"alice", -2, "banned", []⟩] =
      (.blocked ⟨"alice", -3, "banned", [7]⟩, [⟨"alice", -3, "banned", [7]⟩]) ∧
    ¬ ((0 : Int) < -2) ∧
    jamCheck 7 [⟨"alice", -2, "banned", []⟩] ≠
      (.clear, [⟨"alice", -2, "banned", []⟩]) := by
  refine ⟨rfl, by decide, by decide⟩

/-- C3 (amended): the records are evaluated in sequence with the first
blocking record short-circuiting the rest; a record with `number = -1`
blocks with no mutation; a record whose `number` is NONZERO (and not
`-1`) blocks and, only when the jam is not already in `decremented_for`,
decrements `number` by 1 and appends the jam (persisted by upsert); a
record whose `decremented_for` already contains the jam blocks with no
mutation; a record blocking under none of these is skipped, and if no
record blocks the result is Clear with the store unchanged. -/
theorem C3_ban_gate_policy (jam : Nat) (r : JamBanRecord)
    (rest records : List JamBanRecord) :
    (jamCheck jam ([] : List JamBanRecord) = (.clear, [])) ∧
    (r.number = -1 → jamCheck jam (r :: rest) = (.blocked r, r :: rest)) ∧
    (r.number ≠ -1 → r.number ≠ 0 → jam ∉ r.decremented_for →
jamCheck jam (r :: rest) =
  (.blocked { r with
      number := r.number - 1
      decremented_for := r.decremented_for ++ [jam] },
    { r with
      number := r.number - 1
      decremented_for := r.decremented_for ++ [jam] } :: rest)) ∧
    (r.number ≠ -1 → r.number ≠ 0 → jam ∈ r.decremented_for →
jamCheck jam (r :: rest) = (.blocked r, r :: rest)) ∧
    (r.number = 0 → jam ∈ r.decremented_for →
jamCheck jam (r :: rest) = (.blocked r, r :: rest)) ∧
    (r.number = 0 → jam ∉ r.decremented_for →
jamCheck jam (r :: rest) = ((jamCheck jam rest).1, r :: (jamCheck jam rest).2)) ∧
    ((∀ q ∈ records, q.number = 0 ∧ jam ∉ q.decremented_for) →
jamCheck jam records = (.clear, records)) := by
  refine ⟨rfl, ?_, ?_, ?_, ?_, ?_, ?_⟩
  · intro h1
    simp [jamCheck, h1]
  · intro h1 h2 h3
    simp [jamCheck, h1, h2, h3]
  · intro h1 h2 h3
    simp [jamCheck, h1, h2, h3]
  · intro h2 h3
    have h1 : r.number ≠ -1 := by omega
    simp [jamCheck, h1, h2, h3]
  · intro h2 h3
    have h1 : r.number ≠ -1 := by omega
    simp [jamCheck, h1, h2, h3]
  · intro hall
    induction records with
    | nil => rfl
    | cons q rs ih =>
      have hq := hall q (by simp)
      have h1 : q.number ≠ -1 := by omega
      have hrs := ih (fun p hp => hall p (by simp [hp]))
      simp [jamCheck, h1, hq.1, hq.2, hrs]

/-- Witness for C3: an indefinite (`-1`) record blocks unchanged; a
record with two applications left and the jam not yet charged is
decremented and charged; an exhausted record already charged for the
jam blocks unchanged; a sole exhausted, uncharged record is cleared. -/
theorem C3_ban_gate_policy_witness :
    jamCheck 3 [⟨"u", -1, "x", []⟩] =
      (.blocked ⟨"u", -1, "x", []⟩, [⟨"u", -1, "x", []⟩]) ∧
    jamCheck 3 [⟨"u", 2, "x", []⟩] =
      (.blocked ⟨"u", 1, "x", [3]⟩, [⟨"u", 1, "x", [3]⟩]) ∧
    jamCheck 3 [⟨"u", 0, "x", [3]⟩] =
      (.blocked ⟨"u", 0, "x", [3]⟩, [⟨"u", 0, "x", [3]⟩]) ∧
    jamCheck 3 [⟨"u", 0, "x", []⟩] = (.clear, [⟨"u", 0, "x", []⟩]) := by
  refine ⟨?_, ?_, ?_, ?_⟩
  · exact (C3_ban_gate_policy 3 ⟨"u", -1, "x", []⟩ [] []).2.1 rfl
  · exact (C3_ban_gate_policy 3 ⟨"u", 2, "x", []⟩ [] []).2.2.1
      (by decide) (by decide) (by decide)
  · exact (C3_ban_gate_policy 3 ⟨"u", 0, "x", [3]⟩ [] []).2.2.2.2.1
      rfl (by decide)
  · exact (C3_ban_gate_policy 3 ⟨"u", 0, "x", []⟩ [] [⟨"u", 0, "x", []⟩]).2.2.2.2.2.2
      (by decide)

/-- C4: the gate is idempotent per (user, jam) pair.  Concretely, from a
record with `number = 2` and empty `decremented_for`, the first check
for jam 7 decrements to `number = 1` and charges jam 7, and a second
check for jam 7 blocks without decrementing or appending again; in
general, re-running the whole check on the store it produced returns the
same verdict and leaves the store unchanged, so no (user, jam) pair is
ever charged twice. -/
theorem C4_jam_check_idempotent :
    (∀ participant reason,
jamCheck 7 [⟨participant, 2, reason, []⟩] =
  (.blocked ⟨participant, 1, reason, [7]⟩, [⟨participant, 1, reason, [7]⟩])) ∧
    (∀ participant reason,
jamCheck 7 [⟨participant, 1, reason, [7]⟩] =
  (.blocked ⟨participant, 1, reason, [7]⟩, [⟨participant, 1, reason, [7]⟩])) ∧
    (∀ (jam : Nat) (records : List JamBanRecord),
jamCheck jam (jamCheck jam records).2 = jamCheck jam records) := by
  refine ⟨fun participant reason => rfl, fun participant reason => rfl, ?_⟩
  intro jam records
  induction records with
  | nil => rfl
  | cons r rest ih =>
    by_cases h1 : r.number = -1
    · simp [jamCheck, h1]
    · by_cases h2 : r.number = 0
      · by_cases h3 : jam ∈ r.decremented_for
        · simp [jamCheck, h1, h2, h3]
        · simp [jamCheck, h1, h2, h3, ih]
      · by_cases h3 : jam ∈ r.decremented_for
        · simp [jamCheck, h1, h2, h3]
        · have hne : r.number - 1 ≠ -1 := by omega
          have hmem : jam ∈ r.decremented_for ++ [jam] := by simp
          by_cases h4 : r.number - 1 = 0 <;>
            simp [jamCheck, h1, h2, h3, hne, hmem, h4]

/-- Reading by id commutes with a per-document transform that preserves
the `id` field (the shape of every store update in scope). -/
theorem db_get_map (t : InfractionTable) (f : InfractionDoc → InfractionDoc)
    (hf : ∀ r, (f r).id = r.id) (i : Nat) :
    db_get (t.map f) i = (db_get t i).map f := by
  induction t with
  | nil => rfl
  | cons a l ih =>
    by_cases h : a.id = i
    · unfold db_get
      rw [List.map_cons]
      rw [List.find?_cons_of_pos _ (by simp [hf, h]),
        List.find?_cons_of_pos _ (by simp [h])]
      rfl
    · unfold db_get
      rw [List.map_cons]
      rw [List.find?_cons_of_neg _ (by simp [hf, h]),
        List.find?_cons_of_neg _ (by simp [h])]
      exact ih

/-- The update collection always carries the payload's id. -/
theorem patch_update_collection_id (data : PatchData) (now : Int) :
    (patch_update_collection data now).id = data.id := rfl

/-- The per-document update preserves the `id` field. -/
theorem applyUpdateCollection_id (uc : UpdateCollection) (row : InfractionDoc) :
    (applyUpdateCollection uc row).id = row.id := rfl

/-- C5: update returns `success = false` with no infraction payload
exactly when no record matched the given id, and when a record did match
it returns `success = true` together with that record, with the present
fields applied, in the reshaped form (derived active, shaped user/actor
objects). -/
theorem C5_patch_success_iff_matched (users : List UserProfile)
    (table : InfractionTable) (data : PatchData) (now : Int) :
    ((patch users table data now).success = false ∧
      (patch users table data now).infraction = none ↔
        ∀ row ∈ table, row.id ≠ data.id) ∧
    (∀ row, db_get table data.id = some row →
(patch users table data now).success = true ∧
(patch users table data now).infraction =
  some (shapeInfraction users (data.expand.getD false) now
    (applyUpdateCollection (patch_update_collection data now) row))) := by
  have hid : ∀ r : InfractionDoc,
      ((if r.id = (patch_update_collection data now).id then
        applyUpdateCollection (patch_update_collection data now) r else r).id) = r.id := by
    intro r
    by_cases h : r.id = (patch_update_collection data now).id
    · rw [if_pos h, applyUpdateCollection_id]
    · rw [if_neg h]
  constructor
  · constructor
    · intro hfail row hmem heq
      have hany : (table.any fun r => r.id == (patch_update_collection data now).id) = true := by
        refine List.any_eq_true.mpr ⟨row, hmem, ?_⟩
        simp [heq, patch_update_collection_id]
      have : (patch users table data now).success = true := by
        unfold patch db_update
        simp [hany]
      rw [hfail.1] at this
      exact Bool.false_ne_true this
    · intro hno
      have hany : (table.any fun r => r.id == (patch_update_collection data now).id) = false := by
        rw [List.any_eq_false]
        intro r hr
        simp [patch_update_collection_id]
        exact hno r hr
      unfold patch db_update
      simp [hany]
  · intro row hfind
    have hfind' : List.find? (fun r => r.id == data.id) table = some row := hfind
    have hpred := List.find?_some hfind'
    have hmem : row ∈ table := List.mem_of_find?_eq_some hfind'
    have hrowid : row.id = data.id := by simpa using hpred
    have hany : (table.any fun r => r.id == (patch_update_collection data now).id) = true := by
      refine List.any_eq_true.mpr ⟨row, hmem, ?_⟩
      simp [hrowid, patch_update_collection_id]
    have hget :
        db_get (table.map fun r =>
          if r.id = (patch_update_collection data now).id then
            applyUpdateCollection (patch_update_collection data now) r else r) data.id =
        some (applyUpdateCollection (patch_update_collection data now) row) := by
      rw [db_get_map table _ hid data.id]
      rw [show db_get table data.id = some row from hfind]
      simp [patch_update_collection_id, hrowid]
    unfold patch db_update
    simp only [hany, Bool.not_true, Bool.false_eq_true, if_false]
    rw [hget]
    exact ⟨by trivial, rfl⟩

/-- Witness for C5: updating a missing id fails with no payload;
updating a present id succeeds and returns the reshaped record. -/
theorem C5_patch_success_iff_matched_witness :
    (patch [] [] ⟨9, some "new", none, none, none⟩ 50).success = false ∧
    (patch [] [] ⟨9, some "new", none, none, none⟩ 50).infraction = none ∧
    (patch [] [⟨9, "u", "m", .mute, "old", 0, none, none⟩]
        ⟨9, none, some 30, none, none⟩ 50).success = true ∧
    (patch [] [⟨9, "u", "m", .mute, "old", 0, none, none⟩]
        ⟨9, none, some 30, none, none⟩ 50).infraction =
      some (shapeInfraction [] false 50 ⟨9, "u", "m", .mute, "old", 0, some 80, none⟩) := by
  have h1 := (C5_patch_success_iff_matched [] [] ⟨9, some "new", none, none, none⟩ 50).1.mpr
    (by intro row hrow; simp at hrow)
  have h2 := (C5_patch_success_iff_matched []
      [⟨9, "u", "m", .mute, "old", 0, none, none⟩] ⟨9, none, some 30, none, none⟩ 50).2
    ⟨9, "u", "m", .mute, "old", 0, none, none⟩ (by decide)
  exact ⟨h1.1, h1.2, h2.1, h2.2⟩

/-- Extracts the matched `active` value from a filter carrying an
`active` entry. -/
theorem matchesFilter_active (f : InfractionFilter) (row : InfractionDoc)
    (a b : Bool) (hf : f.active = some b) (h : matchesFilter f row a = true) :
    a = b := by
  unfold matchesFilter at h
  rw [hf] at h
  simp only [Bool.and_eq_true, beq_iff_eq] at h
  exact h.2

/-- C8: for every list query whose `active` parameter parses to a
requested value, each returned record comes from a stored row whose
DERIVED effective-active value at query time equals the requested value
(the activation merge precedes the filter), and the shaped record's
`active` field equals it as well. -/
theorem C8_active_filter_derived (users : List UserProfile)
    (table : InfractionTable) (params : GetParams) (qf : InfractionFilter)
    (now : Int) (b : Bool) (h : parse_bool params.active none = some b) :
    ∀ s ∈ _infraction_list_filtered users table params qf now,
      ∃ row ∈ table,
        s = shapeInfraction users ((parse_bool params.expand (some false)).getD false)
          now row ∧
        effective_active_spec row now = b ∧ s.active = b := by
  intro s hs
  unfold _infraction_list_filtered at hs
  rw [h] at hs
  unfold _merged_query at hs
  simp only [List.mem_map, List.mem_filter] at hs
  obtain ⟨merged, ⟨hmem, hmatch⟩, hshape⟩ := hs
  obtain ⟨row, hrow, hpair⟩ := hmem
  subst hpair
  have hact : _merge_active_check now row = b :=
    matchesFilter_active _ row _ b rfl hmatch
  refine ⟨row, hrow, hshape.symm, ?_, ?_⟩
  · rw [← merge_active_eq_spec now row]
    exact hact
  · rw [← hshape]
    exact hact

/-- Witness for C8: with `active=true` requested, a table holding one
live mute and one expired mute returns only the live one, actively
derived. -/
theorem C8_active_filter_derived_witness :
    parse_bool (some "true") none = some true ∧
    (∀ s ∈ _infraction_list_filtered []
        [⟨1, "u", "m", .mute, "r", 0, some 50, none⟩,
         ⟨2, "u", "m", .mute, "r", 0, some 200, none⟩]
        ⟨some "true", none⟩ ⟨none, none, none⟩ 100,
      ∃ row ∈ [⟨1, "u", "m", .mute, "r", 0, some 50, none⟩,
        (⟨2, "u", "m", .mute, "r", 0, some 200, none⟩ : InfractionDoc)],
        s = shapeInfraction []
          ((parse_bool (none : Option String) (some false)).getD false) 100 row ∧
        effective_active_spec row 100 = true ∧ s.active = true) := by
  constructor
  · decide
  · exact C8_active_filter_derived []
      [⟨1, "u", "m", .mute, "r", 0, some 50, none⟩,
       ⟨2, "u", "m", .mute, "r", 0, some 200, none⟩]
      ⟨some "true", none⟩ ⟨none, none, none⟩ 100 true (by decide)

/-- What the create path's active-infraction lookup guarantees about a
hit: the document is stored, belongs to the requested user and type, and
its derived active value at query time is true. -/
theorem findActiveInfraction_spec (t : InfractionTable) (u : String)
    (ty : InfractionTypeName) (now : Int) (p : InfractionDoc)
    (h : findActiveInfraction t u ty now = some p) :
    p ∈ t ∧ p.user_id = u ∧ p.type = ty ∧ _merge_active_check now p = true := by
  unfold findActiveInfraction at h
  have hmem : p ∈ t.filter fun row =>
      row.user_id == u && row.type == ty && _merge_active_check now row := by
    cases hfil : t.filter fun row =>
        row.user_id == u && row.type == ty && _merge_active_check now row with
    | nil => rw [hfil] at h; exact absurd h (by simp)
    | cons a l =>
      rw [hfil] at h
      simp only [List.head?, Option.some.injEq] at h
      rw [← h]
      exact List.mem_cons_self a l
  have hres := List.mem_filter.mp hmem
  have hp := hres.2
  simp only [Bool.and_eq_true, beq_iff_eq] at hp
  exact ⟨hres.1, hp.1.1, hp.1.2, hp.2⟩

/-- Reading a freshly appended document by its id succeeds when no
earlier document carries that id. -/
theorem db_get_append_fresh (t : InfractionTable) (d : InfractionDoc)
    (hfresh : ∀ r ∈ t, r.id ≠ d.id) : db_get (t ++ [d]) d.id = some d := by
  induction t with
  | nil =>
    unfold db_get
    rw [List.nil_append, List.find?_cons_of_pos _ (by simp)]
  | cons a l ih =>
    unfold db_get
    rw [List.cons_append,
      List.find?_cons_of_neg _ (by simp [hfresh a (List.mem_cons_self a l)])]
    exact ih fun r hr => hfresh r (List.mem_cons_of_mem a hr)

/-- C2 counterexample: a create of the timed type `ban` with a provided
duration of `-5` seconds, for user alice who holds a derived-active
prior ban, satisfies the claim's premise, yet the new record is created
with `expires_at = 95` already in the past of the creation-time clock
100, so its derived active is false — contradicting the claim's "the
new record's derived active is true" (the schema admits any int
duration, and `if duration:` is truthy for a negative one). -/
theorem C2_negative_duration_counterexample :
    (INFRACTION_TYPES InfractionTypeName.ban).timed_infraction = true ∧
    findActiveInfraction [⟨1, "alice", "mod", .ban, "r", 0, none, none⟩]
      "alice" .ban 100 = some ⟨1, "alice", "mod", .ban, "r", 0, none, none⟩ ∧
    (post_new_doc ⟨.ban, "again", "alice", "mod", some (-5), none⟩ 100 2).expires_at =
      some 95 ∧
    _merge_active_check 100
      (post_new_doc ⟨.ban, "again", "alice", "mod", some (-5), none⟩ 100 2) = false := by
  refine ⟨by decide, by decide, by decide, by decide⟩

/-- C2 (amended): creating a timed infraction for a user who already has
a derived-active infraction of that type runs the insert BEFORE the
deactivation (the mutation sequence is exactly insert-then-deactivate),
and once the operation completes the prior record is still stored with
its derived active now false, while the new record is stored and
retrievable by its generated id and reads as derived-active at the
creation-time clock — unless a negative duration was provided, in which
case the new record is created already expired and reads inactive. -/
theorem C2_supersession_insert_then_deactivate (table : InfractionTable)
    (data : PostData) (now : Int) (newId : Nat) (prior : InfractionDoc)
    (htimed : (INFRACTION_TYPES data.type).timed_infraction = true)
    (hfound : findActiveInfraction table data.user_id data.type now = some prior)
    (hfresh : ∀ row ∈ table, row.id ≠ newId) :
    (post_mutations table data now newId =
      [.insertDoc (post_new_doc data now newId), .setInactive prior.id]) ∧
    (_merge_active_check now prior = true) ∧
    ({ prior with active := some false } ∈ post_table table data now newId) ∧
    (_merge_active_check now { prior with active := some false } = false) ∧
    (post_new_doc data now newId ∈ post_table table data now newId) ∧
    (data.duration = none ∨ (∃ d : Int, data.duration = some d ∧ 0 ≤ d) →
_merge_active_check now (post_new_doc data now newId) = true) ∧
    (∀ d : Int, data.duration = some d → d < 0 →
_merge_active_check now (post_new_doc data now newId) = false) ∧
    (db_get (post_table table data now newId) newId =
      some (post_new_doc data now newId)) := by
  obtain ⟨hmem, huid, hty, hact⟩ :=
    findActiveInfraction_spec table data.user_id data.type now prior hfound
  have hops : post_mutations table data now newId =
      [.insertDoc (post_new_doc data now newId), .setInactive prior.id] := by
    unfold post_mutations
    rw [htimed, hfound]
    simp
  have hpriorid : prior.id ≠ newId := hfresh prior hmem
  have htable : post_table table data now newId =
      (table ++ [post_new_doc data now newId]).map fun row =>
        if row.id = prior.id then { row with active := some false } else row := by
    unfold post_table
    rw [hops]
    rfl
  have hnew_id : (post_new_doc data now newId).id = newId := rfl
  have hnew_fixed :
      (if (post_new_doc data now newId).id = prior.id then
        { post_new_doc data now newId with active := some false }
      else post_new_doc data now newId) = post_new_doc data now newId := by
    rw [if_neg]
    rw [hnew_id]
    exact fun hc => hpriorid hc.symm
  refine ⟨hops, hact, ?_, ?_, ?_, ?_, ?_, ?_⟩
  · rw [htable]
    have : ({ prior with active := some false } : InfractionDoc) =
        if prior.id = prior.id then { prior with active := some false } else prior := by
      rw [if_pos rfl]
    rw [this]
    exact List.mem_map_of_mem _ (List.mem_append_left _ hmem)
  · unfold _merge_active_check
    rw [is_timed_infraction_eq]
    have : ({ prior with active := some false } : InfractionDoc).type = prior.type := rfl
    rw [this, hty, htimed]
    simp
  · rw [htable]
    have hmemnew : post_new_doc data now newId ∈
        table ++ [post_new_doc data now newId] := by
      simp
    exact List.mem_map.mpr ⟨post_new_doc data now newId, hmemnew, hnew_fixed⟩
  · intro hdur
    unfold _merge_active_check
    rw [is_timed_infraction_eq]
    have htty : (post_new_doc data now newId).type = data.type := rfl
    rw [htty, htimed]
    have hover : (post_new_doc data now newId).active = none := rfl
    rw [hover]
    rcases hdur with hd | ⟨d, hd, hdnn⟩
    · have : (post_new_doc data now newId).expires_at = none := by
        unfold post_new_doc
        simp [hd]
      rw [this]
      simp
    · by_cases hz : d = 0
      · have : (post_new_doc data now newId).expires_at = none := by
          unfold post_new_doc
          simp [htimed, hd, hz]
        rw [this]
        simp
      · have : (post_new_doc data now newId).expires_at = some (now + d) := by
          unfold post_new_doc
          simp [htimed, hd, hz]
        rw [this]
        simp
        omega
  · intro d hd hneg
    unfold _merge_active_check
    rw [is_timed_infraction_eq]
    have htty : (post_new_doc data now newId).type = data.type := rfl
    rw [htty, htimed]
    have hover : (post_new_doc data now newId).active = none := rfl
    rw [hover]
    have hz : d ≠ 0 := by omega
    have : (post_new_doc data now newId).expires_at = some (now + d) := by
      unfold post_new_doc
      simp [htimed, hd, hz]
    rw [this]
    simp
    omega
  · rw [htable, List.map_append]
    have hmap1 : ([post_new_doc data now newId].map fun row =>
        if row.id = prior.id then { row with active := some false } else row) =
        [post_new_doc data now newId] := by
      rw [List.map_singleton, hnew_fixed]
    rw [hmap1, ← hnew_id]
    apply db_get_append_fresh
    intro r hr
    obtain ⟨r0, hr0, hr0eq⟩ := List.mem_map.mp hr
    have : r.id = r0.id := by
      rw [← hr0eq]
      by_cases hc : r0.id = prior.id
      · rw [if_pos hc]
      · rw [if_neg hc]
    rw [this, hnew_id]
    exact hfresh r0 hr0

/-- Witness for C2: user alice holds a live permanent ban (record 1);
creating a 60-second ban at time 100 with fresh id 2 inserts first,
then deactivates record 1; afterwards record 1 reads inactive and
record 2 reads active and is retrievable. -/
theorem C2_supersession_insert_then_deactivate_witness :
    findActiveInfraction [⟨1, "alice", "mod", .ban, "r", 0, none, none⟩]
      "alice" .ban 100 = some ⟨1, "alice", "mod", .ban, "r", 0, none, none⟩ ∧
    post_mutations [⟨1, "alice", "mod", .ban, "r", 0, none, none⟩]
      ⟨.ban, "again", "alice", "mod", some 60, none⟩ 100 2 =
      [.insertDoc (post_new_doc ⟨.ban, "again", "alice", "mod", some 60, none⟩ 100 2),
        .setInactive 1] ∧
    _merge_active_check 100
      ({ (⟨1, "alice", "mod", .ban, "r", 0, none, none⟩ : InfractionDoc) with
        active := some false }) = false ∧
    _merge_active_check 100
      (post_new_doc ⟨.ban, "again", "alice", "mod", some 60, none⟩ 100 2) = true ∧
    db_get (post_table [⟨1, "alice", "mod", .ban, "r", 0, none, none⟩]
        ⟨.ban, "again", "alice", "mod", some 60, none⟩ 100 2) 2 =
      some (post_new_doc ⟨.ban, "again", "alice", "mod", some 60, none⟩ 100 2) := by
  have h := C2_supersession_insert_then_deactivate
    [⟨1, "alice", "mod", .ban, "r", 0, none, none⟩]
    ⟨.ban, "again", "alice", "mod", some 60, none⟩ 100 2
    ⟨1, "alice", "mod", .ban, "r", 0, none, none⟩
    (by decide) (by decide) (by decide)
  exact ⟨by decide, h.1, h.2.2.2.1,
    h.2.2.2.2.2.1 (Or.inr ⟨60, rfl, by decide⟩), h.2.2.2.2.2.2.2⟩

end Pysite
